import Mathlib

/-!
Shallow embedding of `src/video/out/d3d11/context.c` (mpv's D3D11 rendering
context): the QPC-tick clock conversion `qpc_to_us`, the vsync-timing
estimator `d3d11_get_vsync` together with the mutable fields of `struct priv`
that it reads and writes, the submit-time recording of `d3d11_swap_buffers`,
and the adapter-option validator `d3d11_validate_adapter`.

Machine integers are modelled as `Nat` (C `unsigned`/`UINT`, 32-bit) and
`Int` (C `int64_t`), with explicit reduction mod `2^32` (`usub32`, `wrap32`,
`i64ToU32`, `toInt32`) where C's unsigned wraparound and conversions apply,
and mod `2^64` (`wrap64`) at the `int64_t` operations that could overflow.
C integer division on `int64_t` truncates toward zero, hence `Int.tdiv` /
`Int.tmod`; C unsigned division is `Nat` division.

External collaborators (DXGI swapchain queries, the performance counter,
`mp_time_us`) are inputs to the step functions: each call of
`d3d11_get_vsync` receives the result of `GetLastPresentCount` (an `Option`,
`none` = FAILED HRESULT), the HRESULT of `GetFrameStatistics` together with
the statistics record, and the ambient clock readings used on the success
path.
-/

/-- Two to the 32nd: modulus of C `unsigned` / `UINT` arithmetic. -/
def U32_MOD : Nat := 2 ^ 32

/-- Two to the 63rd: bound of non-negative `int64_t` values. -/
def I64_BOUND : Int := 2 ^ 63

/-- Reduce a mathematical integer into C `unsigned` range (value of a
conversion to a 32-bit unsigned type). -/
def wrap32 (n : Nat) : Nat := n % U32_MOD

/-- C unsigned 32-bit subtraction `a - b` (wraparound mod `2^32`). -/
def usub32 (a b : Nat) : Nat :=
  (a % U32_MOD + (U32_MOD - b % U32_MOD)) % U32_MOD

/-- Wrap a mathematical integer into `int64_t` range `[-2^63, 2^63)`,
modelling two's-complement overflow of a C `int64_t` operation. -/
def wrap64 (x : Int) : Int := (x + I64_BOUND) % (2 ^ 64) - I64_BOUND

/-- Value of a C conversion of an `int64_t` value to `unsigned`
(truncation mod `2^32`). -/
def i64ToU32 (x : Int) : Nat := (x % (U32_MOD : Int)).toNat

/-- Value of a 32-bit unsigned quantity reinterpreted as a C `int`
(two's complement). -/
def toInt32 (n : Nat) : Int :=
  if n % U32_MOD < 2 ^ 31 then (n % U32_MOD : Int)
  else (n % U32_MOD : Int) - (U32_MOD : Int)

/-- Function `qpc_to_us` from `context.c`: convert QPC units (`1/freq`
seconds) to microseconds as `qpc / freq * 1000000 + qpc % freq * 1000000 /
freq`, all in `int64_t` arithmetic (truncating division, `wrap64` at each
operation that can overflow). -/
def qpc_to_us (qpc freq : Int) : Int :=
  wrap64 (wrap64 (Int.tdiv qpc freq * 1000000) +
    Int.tdiv (wrap64 (Int.tmod qpc freq * 1000000)) freq)

/-- Seconds in 100 years, the horizon of the overflow comment in
`qpc_to_us` ("the QPC value is guaranteed not to roll-over within
100 years, so perf_freq must be less than 2.9*10^9"). -/
def SEC_100_YEARS : Nat := 100 * 365 * 24 * 60 * 60

/-- Fields of `struct priv` that the clock conversion, the vsync estimator
and the buffer swap read and write, together with the configured
`d3d11-sync-interval` option. -/
structure Priv where
  perf_freq : Int
  last_sync_refresh_count : Nat
  last_sync_qpc_time : Int
  vsync_duration_qpc : Int
  last_submit_qpc : Int
  sync_interval : Int
  deriving Repr, DecidableEq

/-- Record `DXGI_FRAME_STATISTICS` as read by `d3d11_get_vsync`:
`PresentCount`, `PresentRefreshCount`, `SyncRefreshCount` (all `UINT`) and
`SyncQPCTime.QuadPart` (`int64_t`). -/
structure FrameStats where
  presentCount : Nat
  presentRefreshCount : Nat
  syncRefreshCount : Nat
  syncQpcTime : Int
  deriving Repr, DecidableEq

/-- Outcome of `IDXGISwapChain_GetFrameStatistics`: success, the
`DXGI_ERROR_FRAME_STATISTICS_DISJOINT` failure code, or any other failure
HRESULT.  Both `disjoint` and `error` satisfy C's `FAILED(hr)`. -/
inductive StatsHr where
  | ok
  | disjoint
  | error
  deriving Repr, DecidableEq

/-- Record `struct vo_vsync_info` as written by `d3d11_get_vsync`: a field
is `none` when the function leaves it unset on this call. -/
structure VoVsyncInfo where
  skipped_vsyncs : Option Int
  vsync_duration : Option Int
  last_queue_display_time : Option Int
  deriving Repr, DecidableEq

/-- Result record with no field set (every early return of
`d3d11_get_vsync` leaves the caller's record untouched). -/
def emptyVsyncInfo : VoVsyncInfo :=
  { skipped_vsyncs := none, vsync_duration := none,
    last_queue_display_time := none }

/-- Local `src_passed` of `d3d11_get_vsync`: vsyncs passed since the last
call, `stats.SyncRefreshCount - last_sync_refresh_count` in `unsigned`
arithmetic, computed only when both counters are non-zero, else 0. -/
def src_passed (lastSrc : Nat) (stats : FrameStats) : Nat :=
  if stats.syncRefreshCount ≠ 0 ∧ lastSrc ≠ 0 then
    usub32 stats.syncRefreshCount lastSrc
  else 0

/-- Local `sqt_passed` of `d3d11_get_vsync`: QPC ticks passed between the
above vsyncs, the `int64_t` difference `stats.SyncQPCTime.QuadPart -
last_sync_qpc_time` truncated by the assignment to the C `unsigned`
variable, computed only when both timestamps are non-zero, else 0. -/
def sqt_passed (lastSqt : Int) (stats : FrameStats) : Nat :=
  if stats.syncQpcTime ≠ 0 ∧ lastSqt ≠ 0 then
    i64ToU32 (wrap64 (stats.syncQpcTime - lastSqt))
  else 0

/-- Vsync period estimate after one successful statistics sample:
`sqt_passed / src_passed` (C unsigned division) when both are non-zero,
otherwise the previous `vsync_duration_qpc` is kept. -/
def new_vsync_duration_qpc (p : Priv) (stats : FrameStats) : Int :=
  let s := src_passed p.last_sync_refresh_count stats
  let q := sqt_passed p.last_sync_qpc_time stats
  if s ≠ 0 ∧ q ≠ 0 then (q / s : Nat) else p.vsync_duration_qpc

/-- Local `expected_sync_pc` of `d3d11_get_vsync`: the present count
guessed to relate to `SyncRefreshCount`, `PresentCount +
(SyncRefreshCount - PresentRefreshCount)` in `unsigned` arithmetic. -/
def expected_sync_pc (stats : FrameStats) : Nat :=
  wrap32 (stats.presentCount +
    usub32 stats.syncRefreshCount stats.presentRefreshCount)

/-- Local `queued_frames` of `d3d11_get_vsync`: `submit_count -
expected_sync_pc` in `unsigned` arithmetic, then converted to a C `int`. -/
def queued_frames (submit_count : Nat) (stats : FrameStats) : Int :=
  toInt32 (usub32 submit_count (expected_sync_pc stats))

/-- Local `last_queue_display_time_qpc` of `d3d11_get_vsync`: the guessed
QPC timestamp of the last submitted frame, `stats.SyncQPCTime.QuadPart +
queued_frames * vsync_duration_qpc` in `int64_t` arithmetic, where `vd`
is the (already updated) period estimate. -/
def last_queue_display_time_qpc (vd : Int) (submit_count : Nat)
    (stats : FrameStats) : Int :=
  wrap64 (stats.syncQpcTime + wrap64 (queued_frames submit_count stats * vd))

/-- Function `d3d11_get_vsync` from `context.c`.  Inputs: the estimator
state `p`, the result of `GetLastPresentCount` (`none` = FAILED), the
HRESULT and record returned by `GetFrameStatistics`, and the ambient clock
readings `mpTimeUs` (`mp_time_us()`) and `nowQpc`
(`QueryPerformanceCounter` inside `qpc_us_now`).  Returns the updated
state and the fields written into the caller's `vo_vsync_info`. -/
def d3d11_get_vsync (p : Priv) (submitQuery : Option Nat)
    (statsHr : StatsHr) (stats : FrameStats)
    (mpTimeUs nowQpc : Int) : Priv × VoVsyncInfo :=
  if p.sync_interval ≠ 1 then (p, emptyVsyncInfo)
  else
    match submitQuery with
    | none => (p, emptyVsyncInfo)
    | some submit_count =>
      let p1 := if statsHr = StatsHr.disjoint then
        { p with last_sync_refresh_count := 0, last_sync_qpc_time := 0 }
      else p
      if statsHr ≠ StatsHr.ok then (p1, emptyVsyncInfo)
      else
        let vd := new_vsync_duration_qpc p1 stats
        let p2 := { p1 with
          last_sync_refresh_count := stats.syncRefreshCount,
          last_sync_qpc_time := stats.syncQpcTime,
          vsync_duration_qpc := vd }
        let vsyncDur : Option Int :=
          if vd ≠ 0 then some (qpc_to_us vd p2.perf_freq) else none
        let ldt : Option Int :=
          if vd ≠ 0 ∧ stats.presentCount ≠ 0 ∧
              stats.presentRefreshCount ≠ 0 ∧
              stats.syncRefreshCount ≠ 0 ∧ stats.syncQpcTime ≠ 0 then
            let t := last_queue_display_time_qpc vd submit_count stats
            if t ≥ p2.last_submit_qpc then
              some (mpTimeUs +
                (qpc_to_us t p2.perf_freq - qpc_to_us nowQpc p2.perf_freq))
            else none
          else none
        (p2, { skipped_vsyncs := some 0, vsync_duration := vsyncDur,
               last_queue_display_time := ldt })

/-- Function `d3d11_swap_buffers` from `context.c`, restricted to its
effect on the estimator state: record the current QPC tick as
`last_submit_qpc` (the `Present` call itself is an external side
effect). -/
def d3d11_swap_buffers (p : Priv) (nowQpc : Int) : Priv :=
  { p with last_submit_qpc := nowQpc }

/-- Modelled from the spec: status code `M_OPT_EXIT` of mpv's option
validator (`options/m_option.h` is not part of this source file), the
distinguished negative "show help and exit" code. -/
def M_OPT_EXIT : Int := -5

/-- Modelled from the spec: status code `M_OPT_INVALID` of mpv's option
validator, the negative "invalid value" code. -/
def M_OPT_INVALID : Int := -3

/-- Function `d3d11_validate_adapter` from `context.c`.  The external
helper `mp_d3d11_list_or_verify_adapters` is modelled from the spec
("validated against an enumeration of available adapters") as membership
of the parameter in the list of available adapter names; in help mode the
helper only produces the listing text, and its return value is unused. -/
def d3d11_validate_adapter (adapters : List String) (param : String) : Int :=
  let help := param = "help"
  if param = "" then 0
  else
    let adapter_matched := if help then false else adapters.contains param
    if help then M_OPT_EXIT
    else if adapter_matched then 0 else M_OPT_INVALID

/-- Estimator state of the end-to-end scenario: zeroed counters,
`perf_freq` of 10,000,000 ticks/sec, sync interval 1. -/
def p_start : Priv := ⟨10000000, 0, 0, 0, 0, 1⟩

/-- First statistics sample of the end-to-end scenario:
`SyncRefreshCount` 100, `SyncQPCTime` 1,000,000. -/
def sample_first : FrameStats := ⟨0, 0, 100, 1000000⟩

/-- Second statistics sample of the end-to-end scenario:
`SyncRefreshCount` 102, `SyncQPCTime` 1,020,000. -/
def sample_second : FrameStats := ⟨0, 0, 102, 1020000⟩

/-- Unsigned subtraction of a value from itself is zero. -/
theorem usub32_self (a : Nat) : usub32 a a = 0 := by
  unfold usub32 U32_MOD
  omega

/-- Wrapping zero into `int64_t` range is the identity. -/
theorem wrap64_zero : wrap64 0 = 0 := by decide

/-- Wrapping is the identity on values already in non-negative `int64_t`
range. -/
theorem wrap64_eq_self {x : Int} (h0 : 0 ≤ x) (h1 : x < I64_BOUND) :
    wrap64 x = x := by
  unfold wrap64 I64_BOUND at *
  rw [Int.emod_eq_of_lt (by omega) (by omega)]
  omega

/-- Claim C1, counterexample: on a disjoint-timeline statistics result the
code resets `last_sync_refresh_count` and `last_sync_qpc_time` to zero and
returns at the `FAILED(hr)` check; it does not continue processing the
sample, whose counters (100, 1000000) are never stored, and the result
record is left entirely unset. -/
theorem disjoint_sample_counters_not_stored :
    (d3d11_get_vsync ⟨10000000, 5, 55, 0, 0, 1⟩ (some 7) StatsHr.disjoint
        ⟨3, 4, 100, 1000000⟩ 0 0).1.last_sync_refresh_count = 0 ∧
    (d3d11_get_vsync ⟨10000000, 5, 55, 0, 0, 1⟩ (some 7) StatsHr.disjoint
        ⟨3, 4, 100, 1000000⟩ 0 0).1.last_sync_qpc_time = 0 ∧
    (⟨3, 4, 100, 1000000⟩ : FrameStats).syncRefreshCount = 100 ∧
    (⟨3, 4, 100, 1000000⟩ : FrameStats).syncQpcTime = 1000000 ∧
    (d3d11_get_vsync ⟨10000000, 5, 55, 0, 0, 1⟩ (some 7) StatsHr.disjoint
        ⟨3, 4, 100, 1000000⟩ 0 0).2 = emptyVsyncInfo := by
  decide

/-- Claim C1, amended: when the statistics query reports a disjoint
timeline (with sync interval 1 and a successful submission-count query),
the estimator resets `last_sync_refresh_count` and `last_sync_qpc_time`
to zero and then returns immediately with an empty result, leaving the
period estimate and last-submit time unchanged and processing nothing of
the sample. -/
theorem disjoint_reset_then_early_return (freq : Int) (lsrc : Nat)
    (lsqt vd lsub : Int) (sc : Nat) (stats : FrameStats) (t now : Int) :
    d3d11_get_vsync ⟨freq, lsrc, lsqt, vd, lsub, 1⟩ (some sc)
      StatsHr.disjoint stats t now =
      (⟨freq, 0, 0, vd, lsub, 1⟩, emptyVsyncInfo) := by
  rfl

/-- Claim C2: for non-negative ticks below 100 years of the given
frequency, with the frequency low enough that 100 years of ticks fit in
`int64_t`, `qpc_to_us` equals the exact mathematical
`ticks * 1000000 / freq` (floor division), and none of the three
intermediate products and sums reaches the `int64_t` overflow bound. -/
theorem qpc_to_us_exact (ticks freq : Int) (h0 : 0 ≤ ticks) (hf : 0 < freq)
    (hb : ticks < freq * (SEC_100_YEARS : Int))
    (hof : freq * (SEC_100_YEARS : Int) < I64_BOUND) :
    qpc_to_us ticks freq = ticks * 1000000 / freq ∧
    Int.tdiv ticks freq * 1000000 < I64_BOUND ∧
    Int.tmod ticks freq * 1000000 < I64_BOUND ∧
    Int.tdiv ticks freq * 1000000 +
      Int.tdiv (Int.tmod ticks freq * 1000000) freq < I64_BOUND := by
  have hS : (SEC_100_YEARS : Int) = 3153600000 := by norm_num [SEC_100_YEARS]
  have htd : Int.tdiv ticks freq = ticks / freq :=
    Int.tdiv_eq_ediv h0 (le_of_lt hf)
  have htm : Int.tmod ticks freq = ticks % freq :=
    Int.tmod_eq_emod h0 (le_of_lt hf)
  have hq0 : 0 ≤ ticks / freq := Int.ediv_nonneg h0 (le_of_lt hf)
  have hqS : ticks / freq < (SEC_100_YEARS : Int) := by
    rw [Int.ediv_lt_iff_lt_mul hf]
    calc ticks < freq * (SEC_100_YEARS : Int) := hb
    _ = (SEC_100_YEARS : Int) * freq := mul_comm _ _
  have hr0 : 0 ≤ ticks % freq := Int.emod_nonneg ticks (ne_of_gt hf)
  have hrf : ticks % freq < freq := Int.emod_lt_of_pos ticks hf
  have hSM : (SEC_100_YEARS : Int) * 1000000 < I64_BOUND := by
    rw [hS]; unfold I64_BOUND; norm_num
  have hA1 : ticks / freq * 1000000 < (SEC_100_YEARS : Int) * 1000000 :=
    mul_lt_mul_of_pos_right hqS (by norm_num)
  have hA : ticks / freq * 1000000 < I64_BOUND := lt_trans hA1 hSM
  have hA0 : 0 ≤ ticks / freq * 1000000 := by positivity
  have hMS : (1000000 : Int) < (SEC_100_YEARS : Int) := by rw [hS]; norm_num
  have hfS : freq * 1000000 < I64_BOUND :=
    lt_trans (mul_lt_mul_of_pos_left hMS hf) hof
  have hB : ticks % freq * 1000000 < I64_BOUND := by
    calc ticks % freq * 1000000 < freq * 1000000 :=
      mul_lt_mul_of_pos_right hrf (by norm_num)
    _ < I64_BOUND := hfS
  have hB0 : 0 ≤ ticks % freq * 1000000 := by positivity
  have hD0 : 0 ≤ ticks % freq * 1000000 / freq :=
    Int.ediv_nonneg hB0 (le_of_lt hf)
  have hDM : ticks % freq * 1000000 / freq < 1000000 := by
    rw [Int.ediv_lt_iff_lt_mul hf]
    calc ticks % freq * 1000000 < freq * 1000000 :=
      mul_lt_mul_of_pos_right hrf (by norm_num)
    _ = 1000000 * freq := mul_comm _ _
  have hq1 : (ticks / freq + 1) * 1000000 ≤ (SEC_100_YEARS : Int) * 1000000 :=
    mul_le_mul_of_nonneg_right (by omega) (by norm_num)
  have hsum : ticks / freq * 1000000 + ticks % freq * 1000000 / freq <
      I64_BOUND := by
    have : ticks / freq * 1000000 + ticks % freq * 1000000 / freq <
        (ticks / freq + 1) * 1000000 := by ring_nf; omega
    omega
  have hsum0 : 0 ≤ ticks / freq * 1000000 + ticks % freq * 1000000 / freq :=
    by omega
  have htdB : Int.tdiv (ticks % freq * 1000000) freq =
      ticks % freq * 1000000 / freq := Int.tdiv_eq_ediv hB0 (le_of_lt hf)
  have e : freq * (ticks / freq) + ticks % freq = ticks :=
    Int.ediv_add_emod ticks freq
  have key : ticks * 1000000 =
      ticks % freq * 1000000 + freq * (ticks / freq * 1000000) := by
    linear_combination (-1000000 : Int) * e
  have main : qpc_to_us ticks freq = ticks * 1000000 / freq := by
    unfold qpc_to_us
    rw [htd, htm, wrap64_eq_self hB0 hB, htdB,
      wrap64_eq_self hA0 hA, wrap64_eq_self hsum0 hsum, key,
      Int.add_mul_ediv_left _ _ (ne_of_gt hf)]
    omega
  refine ⟨main, by rw [htd]; omega, by rw [htm]; omega, ?_⟩
  rw [htd, htm, htdB]
  omega

/-- Claim C2, witness: the conversion is exact and overflow-free at
ticks 123456789 and frequency 10 MHz. -/
theorem qpc_to_us_exact_witness :
    qpc_to_us 123456789 10000000 = 123456789 * 1000000 / 10000000 ∧
    Int.tdiv 123456789 10000000 * 1000000 < I64_BOUND ∧
    Int.tmod 123456789 10000000 * 1000000 < I64_BOUND ∧
    Int.tdiv 123456789 10000000 * 1000000 +
      Int.tdiv (Int.tmod 123456789 10000000 * 1000000) 10000000 <
        I64_BOUND :=
  qpc_to_us_exact 123456789 10000000 (by decide) (by decide) (by decide)
    (by decide)

/-- Claim C3: on a successful statistics sample (sync interval 1), the
period estimate changes only when both `src_passed` and `sqt_passed` are
non-zero; when either counter of the sample equals the stored value the
estimate is unchanged; and the two stored `last_*` counters are
overwritten with the sample's values unconditionally. -/
theorem period_update_requires_both_deltas (freq : Int) (lsrc : Nat)
    (lsqt vd lsub : Int) (sc : Nat) (stats : FrameStats) (t now : Int) :
    ((d3d11_get_vsync ⟨freq, lsrc, lsqt, vd, lsub, 1⟩ (some sc)
        StatsHr.ok stats t now).1.vsync_duration_qpc ≠ vd →
      src_passed lsrc stats ≠ 0 ∧ sqt_passed lsqt stats ≠ 0) ∧
    (stats.syncRefreshCount = lsrc →
      (d3d11_get_vsync ⟨freq, lsrc, lsqt, vd, lsub, 1⟩ (some sc)
        StatsHr.ok stats t now).1.vsync_duration_qpc = vd) ∧
    (stats.syncQpcTime = lsqt →
      (d3d11_get_vsync ⟨freq, lsrc, lsqt, vd, lsub, 1⟩ (some sc)
        StatsHr.ok stats t now).1.vsync_duration_qpc = vd) ∧
    (d3d11_get_vsync ⟨freq, lsrc, lsqt, vd, lsub, 1⟩ (some sc)
        StatsHr.ok stats t now).1.last_sync_refresh_count =
      stats.syncRefreshCount ∧
    (d3d11_get_vsync ⟨freq, lsrc, lsqt, vd, lsub, 1⟩ (some sc)
        StatsHr.ok stats t now).1.last_sync_qpc_time = stats.syncQpcTime := by
  unfold d3d11_get_vsync
  simp only [ne_eq, reduceCtorEq, not_false_eq_true, if_true, if_false,
    ite_false, ite_true, not_true_eq_false]
  refine ⟨?_, ?_, ?_, trivial, trivial⟩
  · intro hne
    by_cases hs : src_passed lsrc stats = 0
    · exact absurd (by unfold new_vsync_duration_qpc; simp [hs]) hne
    · by_cases hq : sqt_passed lsqt stats = 0
      · exact absurd (by unfold new_vsync_duration_qpc; simp [hq]) hne
      · exact ⟨hs, hq⟩
  · intro h
    have hs : src_passed lsrc stats = 0 := by
      unfold src_passed
      rw [h]
      split_ifs <;> simp [usub32_self]
    unfold new_vsync_duration_qpc
    simp [hs]
  · intro h
    have hq : sqt_passed lsqt stats = 0 := by
      unfold sqt_passed
      rw [h, sub_self, wrap64_zero]
      split_ifs <;> simp [i64ToU32]
    unfold new_vsync_duration_qpc
    simp [hq]

/-- Claim C4: whenever the extrapolated display time of the last
submitted frame (computed from the sample and the updated period
estimate) is before the recorded last submission time, the prediction
field of the result is left unset, for every state and every successful
sample. -/
theorem prediction_only_after_last_submit (p : Priv) (sc : Nat)
    (stats : FrameStats) (mt now : Int)
    (h : last_queue_display_time_qpc (new_vsync_duration_qpc p stats) sc
        stats < p.last_submit_qpc) :
    (d3d11_get_vsync p (some sc) StatsHr.ok stats mt
        now).2.last_queue_display_time = none := by
  unfold d3d11_get_vsync
  by_cases hsi : p.sync_interval ≠ 1
  · simp [hsi, emptyVsyncInfo]
  · simp only [hsi, if_false, reduceCtorEq, if_neg, ite_false, ne_eq,
      not_false_eq_true, not_true_eq_false]
    simp [not_le.mpr h]

/-- Claim C4, witness: a state whose last submission is far in the future
of the sample's extrapolated display time publishes no prediction. -/
theorem prediction_only_after_last_submit_witness :
    last_queue_display_time_qpc
        (new_vsync_duration_qpc ⟨10000000, 100, 1000000, 0, 1000000000, 1⟩
          ⟨1, 102, 102, 1020000⟩) 1 ⟨1, 102, 102, 1020000⟩ <
      (⟨10000000, 100, 1000000, 0, 1000000000, 1⟩ : Priv).last_submit_qpc ∧
    (d3d11_get_vsync ⟨10000000, 100, 1000000, 0, 1000000000, 1⟩ (some 1)
        StatsHr.ok ⟨1, 102, 102, 1020000⟩ 0
        0).2.last_queue_display_time = none :=
  ⟨by decide, prediction_only_after_last_submit
    ⟨10000000, 100, 1000000, 0, 1000000000, 1⟩ 1
    ⟨1, 102, 102, 1020000⟩ 0 0 (by decide)⟩

/-- Claim C5, counterexample: a statistics query failing with the disjoint
status does change the estimator state (the stored counters 5 and 55 are
zeroed), contradicting "leaves all estimator state unchanged" for every
failing query. -/
theorem disjoint_failure_changes_state :
    (d3d11_get_vsync ⟨10000000, 5, 55, 777, 42, 1⟩ (some 7)
        StatsHr.disjoint ⟨3, 4, 100, 1000000⟩ 0 0).1 ≠
      ⟨10000000, 5, 55, 777, 42, 1⟩ := by
  decide

/-- Claim C5, amended: a failed submission-count query, or a statistics
query failing with any non-disjoint status, leaves the whole estimator
state unchanged and returns an empty result; a disjoint-status failure
also returns an empty result but first resets `last_sync_refresh_count`
and `last_sync_qpc_time` to zero.  No branch produces an error: the
function always returns a state and a result record. -/
theorem query_failure_leaves_state (p : Priv) (hr : StatsHr) (sc : Nat)
    (stats : FrameStats) (t now : Int) (freq : Int) (lsrc : Nat)
    (lsqt vd lsub : Int) :
    d3d11_get_vsync p none hr stats t now = (p, emptyVsyncInfo) ∧
    d3d11_get_vsync p (some sc) StatsHr.error stats t now =
      (p, emptyVsyncInfo) ∧
    d3d11_get_vsync ⟨freq, lsrc, lsqt, vd, lsub, 1⟩ (some sc)
      StatsHr.disjoint stats t now =
      (⟨freq, 0, 0, vd, lsub, 1⟩, emptyVsyncInfo) := by
  refine ⟨?_, ?_, rfl⟩
  · unfold d3d11_get_vsync
    by_cases h : p.sync_interval ≠ 1 <;> simp [h]
  · unfold d3d11_get_vsync
    by_cases h : p.sync_interval ≠ 1 <;> simp [h]

/-- Claim C6: from zeroed state at 10 MHz with sync interval 1, the first
sample (100, 1000000) only stores the counters and publishes no period;
the second sample (102, 1020000) yields `src_passed` 2, `sqt_passed`
20000, a period estimate of 10000 ticks, and a published vsync duration
of 1000 microseconds. -/
theorem vsync_estimator_end_to_end :
    (d3d11_get_vsync p_start (some 1) StatsHr.ok sample_first 0
        0).2.vsync_duration = none ∧
    (d3d11_get_vsync p_start (some 1) StatsHr.ok sample_first 0
        0).1.last_sync_refresh_count = 100 ∧
    (d3d11_get_vsync p_start (some 1) StatsHr.ok sample_first 0
        0).1.last_sync_qpc_time = 1000000 ∧
    src_passed (d3d11_get_vsync p_start (some 1) StatsHr.ok sample_first 0
        0).1.last_sync_refresh_count sample_second = 2 ∧
    sqt_passed (d3d11_get_vsync p_start (some 1) StatsHr.ok sample_first 0
        0).1.last_sync_qpc_time sample_second = 20000 ∧
    (d3d11_get_vsync (d3d11_get_vsync p_start (some 1) StatsHr.ok
          sample_first 0 0).1 (some 2) StatsHr.ok sample_second 0
        0).1.vsync_duration_qpc = 10000 ∧
    (d3d11_get_vsync (d3d11_get_vsync p_start (some 1) StatsHr.ok
          sample_first 0 0).1 (some 2) StatsHr.ok sample_second 0
        0).2.vsync_duration = some 1000 := by
  decide

/-- Claim C7: with any configured sync interval other than 1 the function
returns an empty result and an unchanged state, whatever the queries and
the statistics sample contain. -/
theorem nonunit_sync_interval_skips_estimation (p : Priv) (q : Option Nat)
    (hr : StatsHr) (stats : FrameStats) (t now : Int)
    (h : p.sync_interval ≠ 1) :
    d3d11_get_vsync p q hr stats t now = (p, emptyVsyncInfo) := by
  unfold d3d11_get_vsync
  simp [h]

/-- Claim C7, witness: sync interval 2 yields an unchanged state and an
empty result on an arbitrary successful sample. -/
theorem nonunit_sync_interval_skips_estimation_witness :
    (⟨10000000, 0, 0, 0, 0, 2⟩ : Priv).sync_interval ≠ 1 ∧
    d3d11_get_vsync ⟨10000000, 0, 0, 0, 0, 2⟩ (some 5) StatsHr.ok
        ⟨1, 1, 1, 1⟩ 0 0 = (⟨10000000, 0, 0, 0, 0, 2⟩, emptyVsyncInfo) :=
  ⟨by decide, nonunit_sync_interval_skips_estimation
    ⟨10000000, 0, 0, 0, 0, 2⟩ (some 5) StatsHr.ok ⟨1, 1, 1, 1⟩ 0 0
    (by decide)⟩

/-- Claim C8, counterexample: on a disjoint signal the period estimate
(777 ticks) and the last-submit timestamp (42) survive unchanged and
non-zero, contradicting "the VsyncEstimatorState is reset to zero". -/
theorem disjoint_keeps_period_and_submit_time :
    (d3d11_get_vsync ⟨10000000, 5, 55, 777, 42, 1⟩ (some 7)
        StatsHr.disjoint ⟨3, 4, 100, 1000000⟩ 0 0).1.vsync_duration_qpc =
      777 ∧
    (d3d11_get_vsync ⟨10000000, 5, 55, 777, 42, 1⟩ (some 7)
        StatsHr.disjoint ⟨3, 4, 100, 1000000⟩ 0 0).1.last_submit_qpc = 42 ∧
    (777 : Int) ≠ 0 ∧ (42 : Int) ≠ 0 := by
  decide

/-- Claim C8, amended: a disjoint signal resets exactly the last observed
refresh counter and refresh timestamp to zero, preserving the period
estimate and the last-submit timestamp; and the last-submit timestamp is
written by the buffer-swap step (which changes nothing else), not by the
estimator. -/
theorem disjoint_resets_only_sync_fields (freq : Int) (lsrc : Nat)
    (lsqt vd lsub : Int) (sc : Nat) (stats : FrameStats)
    (t now now2 : Int) :
    (d3d11_get_vsync ⟨freq, lsrc, lsqt, vd, lsub, 1⟩ (some sc)
        StatsHr.disjoint stats t now).1 = ⟨freq, 0, 0, vd, lsub, 1⟩ ∧
    d3d11_swap_buffers ⟨freq, lsrc, lsqt, vd, lsub, 1⟩ now2 =
      ⟨freq, lsrc, lsqt, vd, now2, 1⟩ := by
  exact ⟨rfl, rfl⟩

/-- Claim C9, counterexample: the parameter "list" is not the special
value — when no adapter is named "list" the validator returns the
invalid-value status, not the show-help-and-exit status (the special
value in the code is "help"). -/
theorem validate_adapter_list_not_special :
    d3d11_validate_adapter ["Intel Adapter"] "list" = M_OPT_INVALID ∧
    M_OPT_INVALID ≠ M_OPT_EXIT ∧ M_OPT_INVALID ≠ 0 := by
  decide

/-- Claim C9, amended: adapter-option validation returns 0 for the empty
parameter, the show-help-and-exit status for the special value "help"
(after printing the enumeration), 0 for any other parameter matching an
available adapter, and the invalid-value status for any other non-empty
parameter matching no adapter. -/
theorem validate_adapter_cases (adapters : List String) (param : String) :
    d3d11_validate_adapter adapters param =
      if param = "" then 0
      else if param = "help" then M_OPT_EXIT
      else if adapters.contains param then 0 else M_OPT_INVALID := by
  unfold d3d11_validate_adapter
  by_cases h0 : param = "" <;> by_cases h1 : param = "help" <;>
    simp [h0, h1]

/-- Claim C10: an empty-string parameter is accepted with status 0 for
every possible adapter enumeration, so the enumeration is never
consulted. -/
theorem validate_adapter_empty_accepted (adapters : List String) :
    d3d11_validate_adapter adapters "" = 0 := rfl
